import Mathlib

/-!
Verification of the memorial-platform backend against its specification.

Shallow embedding of the relevant parts of `backend/app` (family
relationships, family tree, media upload, AI animation status, voice
creation, avatar chat, embeddings management, and the deterministic
vector-id computation), each translated from the corresponding Python
source, together with theorems settling the claims about them.
-/

set_option autoImplicit false

namespace Memorial

/-! ## Common error model

FastAPI turns an `HTTPException` raised by a handler into a response with
that status code; any other exception escaping the handler becomes a 500.
`pythonError` records an exception that is not an `HTTPException` (for this
code base a `NameError` or `AttributeError`), which the framework reports
as an internal server error. -/

/-- A Python exception as observed at an API boundary. -/
inductive PyError where
  /-- `fastapi.HTTPException(status_code, detail)`. -/
  | http (statusCode : Nat) (detail : String)
  /-- `ValueError(msg)` raised by a service function. -/
  | valueError (msg : String)
  /-- `NameError` for an unbound global name. -/
  | nameError (name : String)
  /-- `AttributeError` for a missing attribute on an object. -/
  | attributeError (objType : String) (attrName : String)
  deriving DecidableEq, Repr

/-! ## Data model: family relationships (`app/models.py`) -/

/-- `RelationshipType` enum (`models.py` lines 104-109). -/
inductive RelationshipType where
  | parent
  | child
  | spouse
  | sibling
  deriving DecidableEq, Repr

/-- The columns of a `memorials` row that the family endpoints read
(`models.py` lines 43-63); timestamps are opaque integers. -/
structure MemorialRow where
  id : Nat
  name : String
  birth_date : Option Int
  death_date : Option Int
  deriving DecidableEq, Repr

/-- One row of the `family_relationships` table (`models.py` lines 112-130). -/
structure FamilyRelationship where
  id : Nat
  memorial_id : Nat
  related_memorial_id : Nat
  relationship_type : RelationshipType
  notes : Option String
  deriving DecidableEq, Repr

/-- The relational state the family endpoints read and write: the set of
existing memorial ids, the `family_relationships` rows, and the next
autoincrement primary key. -/
structure FamilyDB where
  memorials : List MemorialRow
  relationships : List FamilyRelationship
  nextId : Nat
  deriving DecidableEq, Repr

/-- `db.query(Memorial).filter(Memorial.id == i).first()`. -/
def findMemorial (db : FamilyDB) (i : Nat) : Option MemorialRow :=
  db.memorials.find? (fun m => m.id == i)

/-- Row matcher for the query
`filter(memorial_id == a, related_memorial_id == b, relationship_type == t)`. -/
def matchesTriple (a b : Nat) (t : RelationshipType) (r : FamilyRelationship) : Bool :=
  r.memorial_id == a && r.related_memorial_id == b && decide (r.relationship_type = t)

/-- Two rows collide on the `uq_relationship` unique constraint
(`models.py` lines 128-130) when they agree on
`(memorial_id, related_memorial_id, relationship_type)`. -/
def tripleEq (r s : FamilyRelationship) : Bool :=
  r.memorial_id == s.memorial_id && r.related_memorial_id == s.related_memorial_id &&
    decide (r.relationship_type = s.relationship_type)

/-- The `uq_relationship` unique constraint holds of a row list: no two rows
share the same `(memorial_id, related_memorial_id, relationship_type)`. -/
def noDupTriples : List FamilyRelationship → Bool
  | [] => true
  | r :: rest => rest.all (fun s => !(tripleEq r s)) && noDupTriples rest

/-- The reverse relationship type added by `create_relationship`
(`family.py` lines 79-114): a parent edge gets a child mirror, a child edge
a parent mirror, and spouse/sibling edges a mirror of the same type. -/
def reverseTypeOf : RelationshipType → RelationshipType
  | .parent => .child
  | .child => .parent
  | .spouse => .spouse
  | .sibling => .sibling

/-- `POST /family/memorials/{memorial_id}/relationships`
(`family.py` lines 21-127). Checks both memorials exist, rejects
self-relationships and exact duplicates of the
`(memorial_id, related_memorial_id, relationship_type)` triple, then inserts
the requested edge together with its reverse edge and commits. The commit
enforces the `uq_relationship` unique constraint: if the resulting rows
would contain a duplicate triple, the transaction fails instead of
committing (surfacing as an unhandled `IntegrityError`). -/
def create_relationship (db : FamilyDB) (memorial_id : Nat)
    (related_memorial_id : Nat) (rtype : RelationshipType) (notes : Option String) :
    Except PyError (FamilyDB × FamilyRelationship) :=
  if (findMemorial db memorial_id).isNone then
    .error (.http 404 "Memorial not found")
  else if (findMemorial db related_memorial_id).isNone then
    .error (.http 404 "Related memorial not found")
  else if memorial_id = related_memorial_id then
    .error (.http 400 "Cannot create relationship with itself")
  else if (db.relationships.find? (matchesTriple memorial_id related_memorial_id rtype)).isSome then
    .error (.http 400 "Relationship already exists")
  else
    let e1 : FamilyRelationship :=
      ⟨db.nextId, memorial_id, related_memorial_id, rtype, notes⟩
    let e2 : FamilyRelationship :=
      ⟨db.nextId + 1, related_memorial_id, memorial_id, reverseTypeOf rtype, notes⟩
    let rels := db.relationships ++ [e1, e2]
    if noDupTriples rels then
      .ok ({ memorials := db.memorials, relationships := rels, nextId := db.nextId + 2 }, e1)
    else
      .error (.valueError "IntegrityError: UNIQUE constraint failed: uq_relationship")

/-- `DELETE /family/relationships/{relationship_id}`
(`family.py` lines 175-212). Looks the row up by primary key, computes the
reverse relationship type exactly as the source's if/elif chain does,
deletes the first row carrying the mirrored triple if one exists, then
deletes the addressed row itself. -/
def delete_relationship (db : FamilyDB) (relationship_id : Nat) :
    Except PyError FamilyDB :=
  match db.relationships.find? (fun r => r.id == relationship_id) with
  | none => .error (.http 404 "Relationship not found")
  | some rel =>
    let reverse_type := reverseTypeOf rel.relationship_type
    let afterReverse : List FamilyRelationship :=
      match db.relationships.find?
          (matchesTriple rel.related_memorial_id rel.memorial_id reverse_type) with
      | some reverse => db.relationships.filter (fun r => !(r.id == reverse.id))
      | none => db.relationships
    .ok { memorials := db.memorials,
          relationships := afterReverse.filter (fun r => !(r.id == rel.id)),
          nextId := db.nextId }

/-- Number of rows matching a given `(memorial_id, related_memorial_id, type)`
triple. -/
def countTriple (l : List FamilyRelationship) (a b : Nat) (t : RelationshipType) : Nat :=
  (l.filter (matchesTriple a b t)).length

/-- Primary-key uniqueness of the `id` column over a row list. -/
def uniqueIdsB : List FamilyRelationship → Bool
  | [] => true
  | r :: rest => rest.all (fun s => !(r.id == s.id)) && uniqueIdsB rest

/-- Witness database: two memorials, no relationships yet. -/
def twoMemorialsDB : FamilyDB :=
  { memorials := [⟨1, "Anna", none, none⟩, ⟨2, "Boris", none, none⟩],
    relationships := [], nextId := 1 }

/-- Witness database: two memorials already linked by a parent/child
mirrored pair. -/
def mirroredPairDB : FamilyDB :=
  { memorials := [⟨1, "Anna", none, none⟩, ⟨2, "Boris", none, none⟩],
    relationships := [⟨1, 1, 2, .parent, none⟩, ⟨2, 2, 1, .child, none⟩],
    nextId := 3 }

/-- Witness database: two memorials married to each other (a mirrored
spouse pair). -/
def spousePairDB : FamilyDB :=
  { memorials := [⟨1, "Anna", none, none⟩, ⟨2, "Boris", none, none⟩],
    relationships := [⟨1, 1, 2, .spouse, none⟩, ⟨2, 2, 1, .spouse, none⟩],
    nextId := 3 }

/-- Witness database: two memorials each recorded as the other's child — a
cycle in the child-edge graph. -/
def childCycleDB : FamilyDB :=
  { memorials := [⟨1, "Anna", none, none⟩, ⟨2, "Boris", none, none⟩],
    relationships := [⟨1, 1, 2, .child, none⟩, ⟨2, 2, 1, .child, none⟩],
    nextId := 3 }

/-! ## Family tree (`family.py` lines 215-309) -/

/-- `schemas.FamilyTreeNode` (`schemas.py` lines 197-208): a tree node with
separate `children` and `spouses` branch lists. -/
inductive FamilyTreeNode where
  | mk (memorial_id : Nat) (name : String) (birth_date death_date : Option Int)
      (relationship_type : Option RelationshipType)
      (children : List FamilyTreeNode) (spouses : List FamilyTreeNode)
  deriving Repr

def FamilyTreeNode.children : FamilyTreeNode → List FamilyTreeNode
  | .mk _ _ _ _ _ cs _ => cs

def FamilyTreeNode.spouses : FamilyTreeNode → List FamilyTreeNode
  | .mk _ _ _ _ _ _ ss => ss

set_option linter.unusedVariables false in
/-- The recursive helper `build_tree(node_id, depth, visited)` of
`get_family_tree` (`family.py` lines 234-284). Returns `none` when the depth
budget is exhausted (`depth > max_depth`), when the node was already visited
on this path, or when the memorial row is missing; otherwise visits the node,
recurses on its `child` edges at `depth + 1` with the extended visited set
(the source passes `visited.copy()` to every recursive call after
`visited.add(node_id)`), and attaches each `spouse` edge target as a leaf
node with empty `children`/`spouses`. -/
def build_tree (db : FamilyDB) (max_depth : Int) (node_id : Nat) (depth : Int)
    (visited : List Nat) : Option FamilyTreeNode :=
  if h : max_depth < depth ∨ visited.contains node_id then none
  else
    let visited' := node_id :: visited
    match findMemorial db node_id with
    | none => none
    | some node_memorial =>
      let children_rels := db.relationships.filter
        (fun r => r.memorial_id == node_id && decide (r.relationship_type = .child))
      let children := children_rels.filterMap
        (fun r => build_tree db max_depth r.related_memorial_id (depth + 1) visited')
      let spouse_rels := db.relationships.filter
        (fun r => r.memorial_id == node_id && decide (r.relationship_type = .spouse))
      let spouses := spouse_rels.filterMap
        (fun r => (findMemorial db r.related_memorial_id).map
          (fun sm => FamilyTreeNode.mk sm.id sm.name sm.birth_date sm.death_date
            (some .spouse) [] []))
      some (.mk node_memorial.id node_memorial.name node_memorial.birth_date
        node_memorial.death_date none children spouses)
termination_by (max_depth + 1 - depth).toNat
decreasing_by
  rw [not_or] at h
  omega

mutual
/-- The helper `count_nodes` of `get_family_tree` (`family.py` lines
286-295): counts the node itself, recursively every child, and for every
spouse the spouse itself plus the spouse's children subtrees. -/
def count_nodes : FamilyTreeNode → Nat
  | .mk _ _ _ _ _ children spouses =>
    1 + countChildren children + countSpouses spouses

/-- The `for child in node.children` loop of `count_nodes`. -/
def countChildren : List FamilyTreeNode → Nat
  | [] => 0
  | c :: cs => count_nodes c + countChildren cs

/-- The `for spouse in node.spouses` loop of `count_nodes`: each spouse
counts once, plus its children subtrees. -/
def countSpouses : List FamilyTreeNode → Nat
  | [] => 0
  | .mk _ _ _ _ _ spouseChildren _ :: ss =>
    1 + countChildren spouseChildren + countSpouses ss
end

/-- `GET /family/memorials/{memorial_id}/tree` (`family.py` lines 215-309):
404 when the memorial is absent, 500 when `build_tree` returns no root,
otherwise the tree and its node count. -/
def get_family_tree (db : FamilyDB) (memorial_id : Nat) (max_depth : Int) :
    Except PyError (FamilyTreeNode × Nat) :=
  if (findMemorial db memorial_id).isNone then
    .error (.http 404 "Memorial not found")
  else
    match build_tree db max_depth memorial_id 0 [] with
    | none => .error (.http 500 "Failed to build family tree")
    | some root => .ok (root, count_nodes root)

mutual
/-- Length in edges of the longest root-to-leaf path of the returned tree
that descends only through `children` lists (the recursively built part). -/
def childEdgeHeight : FamilyTreeNode → Nat
  | .mk _ _ _ _ _ children _ => childListHeight children

/-- Longest `1 + childEdgeHeight` over a branch list (0 when empty). -/
def childListHeight : List FamilyTreeNode → Nat
  | [] => 0
  | c :: cs => max (1 + childEdgeHeight c) (childListHeight cs)
end

mutual
/-- Length in edges of the longest root-to-leaf path of the returned tree,
where both an entry of a node's `children` list and an entry of its
`spouses` list count as one edge away from the node. -/
def treeHeight : FamilyTreeNode → Nat
  | .mk _ _ _ _ _ children spouses =>
    max (branchListHeight children) (branchListHeight spouses)

/-- Longest `1 + treeHeight` over a branch list (0 when empty). -/
def branchListHeight : List FamilyTreeNode → Nat
  | [] => 0
  | c :: cs => max (1 + treeHeight c) (branchListHeight cs)
end

/-! ## Python truthiness helpers -/

/-- Python truthiness of an optional string (`if x:` with `x: str | None`):
`None` and the empty string are falsy. -/
def pyTruthy : Option String → Bool
  | none => false
  | some s => !(s == "")

/-- Python truthiness of an optional integer: `None` and `0` are falsy. -/
def pyTruthyNat : Option Nat → Bool
  | none => false
  | some n => !(n == 0)

/-- Python `a or b` on optional strings: the left operand when truthy,
otherwise the right operand. -/
def pyOrOptStr (a b : Option String) : Option String :=
  if pyTruthy a then a else b

/-- Whether the first character list starts the second. -/
def startsWithChars : List Char → List Char → Bool
  | [], _ => true
  | _ :: _, [] => false
  | a :: as, b :: bs => a == b && startsWithChars as bs

/-- Whether the first character list occurs contiguously in the second. -/
def containsChars (needle : List Char) : List Char → Bool
  | [] => needle.isEmpty
  | b :: bs => startsWithChars needle (b :: bs) || containsChars needle bs

/-- Python `needle in hay` on strings. -/
def strContains (hay needle : String) : Bool :=
  containsChars needle.toList hay.toList

/-! ## Media upload (`memorials.py` lines 124-242) -/

/-- `MediaType` enum (`models.py` lines 11-16). -/
inductive MediaType where
  | photo
  | video
  | audio
  | document
  deriving DecidableEq, Repr

/-- Python `s.startswith(pre)` (character-level, so that it evaluates in
the kernel). -/
def pyStartsWith (s pre : String) : Bool :=
  startsWithChars pre.toList s.toList

/-- `get_media_type_from_mime` (`memorials.py` lines 52-61). -/
def get_media_type_from_mime (mime_type : String) : MediaType :=
  if pyStartsWith mime_type "image/" then .photo
  else if pyStartsWith mime_type "video/" then .video
  else if pyStartsWith mime_type "audio/" then .audio
  else .document

/-- The inputs that determine `upload_media`'s control flow: the request
data plus the outcomes of the filesystem- and service-level steps the
handler performs (image/video validation results, and whether any later
step — thumbnailing, S3 upload, or the database insert/commit — raises). -/
structure UploadCtx where
  memorialExists : Bool
  /-- `Path(file.filename).suffix[1:].lower()`. -/
  fileExt : String
  /-- `settings.allowed_extensions_list`. -/
  allowedExtensions : List String
  /-- `len(contents)` of the decoded upload. -/
  contentsLen : Nat
  /-- `settings.MAX_UPLOAD_SIZE`. -/
  maxUploadSize : Nat
  /-- `file.content_type or "application/octet-stream"`. -/
  contentType : String
  /-- Result of `validate_image_file(file_path)` for a photo. -/
  photoValid : Bool
  photoErrorMsg : String
  /-- Result of `validate_video_file(file_path)` for a video. -/
  videoValid : Bool
  videoErrorMsg : String
  /-- Whether a step after validation (optimization, thumbnailing, S3
  upload, or the DB insert/commit) raises an exception. -/
  laterStepRaises : Bool
  laterStepErrorMsg : String
  deriving DecidableEq, Repr

/-- Observable outcome of one `upload_media` request: the HTTP status code
of the response and whether the locally written upload file still exists
on disk after the request. -/
structure UploadOutcome where
  statusCode : Nat
  fileOnDisk : Bool
  deriving DecidableEq, Repr

/-- The `try` block of `upload_media` (`memorials.py` lines 156-233).
Returns the file-on-disk flag paired with either a raised exception or the
success status. The size check raises `HTTPException(400)` before the file
is written; a photo failing `validate_image_file` and a video failing
`validate_video_file` first `unlink()` the file and then raise
`HTTPException(400)`; any other exception among the later steps leaves the
file on disk when it propagates out of the block. -/
def uploadTryBody (ctx : UploadCtx) : Bool × Except PyError Nat :=
  if ctx.contentsLen > ctx.maxUploadSize then
    (false, .error (.http 400 ("File size exceeds maximum allowed size of "
      ++ toString ctx.maxUploadSize ++ " bytes")))
  else
    -- `open(file_path, "wb")` has written the contents to disk from here on
    let media_type := get_media_type_from_mime ctx.contentType
    if media_type = .photo ∧ ¬ ctx.photoValid then
      (false, .error (.http 400 ("Invalid image file: " ++ ctx.photoErrorMsg)))
    else if media_type = .video ∧ ¬ ctx.videoValid then
      (false, .error (.http 400 ("Invalid video file: " ++ ctx.videoErrorMsg)))
    else if ctx.laterStepRaises then
      (true, .error (.valueError ctx.laterStepErrorMsg))
    else
      (true, .ok 201)

/-- `POST /memorials/{memorial_id}/media/upload` (`memorials.py` lines
124-242). The memorial-existence and extension checks raise before the
`try` block, so their `HTTPException`s reach the framework with their own
status codes. Everything raised inside the `try` block — including the
`HTTPException(400)`s of the size and validation checks, because FastAPI's
`HTTPException` subclasses `Exception` — is caught by
`except Exception as e`, which unlinks the file if it still exists and
raises a fresh `HTTPException(500, "Error uploading file: ...")`. -/
def upload_media (ctx : UploadCtx) : UploadOutcome :=
  if ¬ ctx.memorialExists then ⟨404, false⟩
  else if ¬ ctx.allowedExtensions.contains ctx.fileExt then ⟨400, false⟩
  else
    match uploadTryBody ctx with
    | (onDisk, .ok code) => ⟨code, onDisk⟩
    | (_, .error _) => ⟨500, false⟩


/-- Input for the C2 witness: a well-formed `.jpg` upload to an existing
memorial whose bytes fail image validation. -/
def c2FailingUpload : UploadCtx :=
  { memorialExists := true
    fileExt := "jpg"
    allowedExtensions := ["jpg", "jpeg", "png", "gif", "mp4", "mov", "mp3", "wav", "pdf", "txt"]
    contentsLen := 1000
    maxUploadSize := 104857600
    contentType := "image/jpeg"
    photoValid := false
    photoErrorMsg := "cannot identify image file"
    videoValid := true
    videoErrorMsg := ""
    laterStepRaises := false
    laterStepErrorMsg := "" }

/-! ## Animation status (`ai_tasks.py` lines 216-365, `ai.py` lines 421-516) -/

/-- Outcome of one outbound HTTP request: either a response (status code,
parsed body, raw text) or a transport failure (`httpx.RequestError`). -/
inductive HttpAttempt (β : Type) where
  | response (statusCode : Nat) (body : β) (text : String)
  | networkError (msg : String)
  deriving DecidableEq, Repr

/-- The JSON body of a HeyGen status response, keyed the way
`get_animation_status` reads it: an optional `data` object with
`status`/`video_url`/`url` keys, top-level `status`/`video_url`/`url`
keys for the direct format, and a top-level `error` key. A `none` field
stands for an absent key or a JSON `null` (both read back as `None`). -/
structure HeygenStatusBody where
  hasData : Bool
  dataStatus : Option String
  dataVideoUrl : Option String
  dataUrl : Option String
  topStatus : Option String
  topVideoUrl : Option String
  topUrl : Option String
  error : Option String
  deriving DecidableEq, Repr

/-- The JSON body of a D-ID talk-status response as read by
`get_animation_status`: `status`, `result_url`, `error`. -/
structure DidStatusBody where
  status : Option String
  result_url : Option String
  error : Option String
  deriving DecidableEq, Repr

/-- `get_heygen_video_status` (`ai_tasks.py` lines 216-267). A 404 response
is mapped to a canned `{"data": {"status": "not_found", ...}, "error": ...}`
body instead of raising; any other non-2xx raises `ValueError` via
`raise_for_status`; a transport failure raises `ValueError` as well.
(The `except httpx.HTTPStatusError` 404 arm at lines 255-263 is shadowed by
the explicit status-code check at lines 240-248.) -/
def get_heygen_video_status (heygenApiKey : String)
    (attempt : HttpAttempt HeygenStatusBody) : Except PyError HeygenStatusBody :=
  if heygenApiKey = "" then .error (.valueError "HEYGEN_API_KEY not configured")
  else
    match attempt with
    | .networkError msg => .error (.valueError ("HeyGen API request failed: " ++ msg))
    | .response statusCode body text =>
      if statusCode = 404 then
        .ok { hasData := true, dataStatus := some "not_found", dataVideoUrl := none,
              dataUrl := none, topStatus := none, topVideoUrl := none, topUrl := none,
              error := some "Video not found. It may still be processing or the ID is incorrect." }
      else if 400 ≤ statusCode then
        .error (.valueError ("HeyGen API error: " ++ toString statusCode ++ " - " ++ text))
      else .ok body

/-- `get_did_talk_status` (`ai_tasks.py` lines 69-93): raises `ValueError`
on any non-2xx response (including 404) and on transport failure. -/
def get_did_talk_status (didApiKey : String)
    (attempt : HttpAttempt DidStatusBody) : Except PyError DidStatusBody :=
  if didApiKey = "" then .error (.valueError "DID_API_KEY not configured")
  else
    match attempt with
    | .networkError msg => .error (.valueError ("D-ID API request failed: " ++ msg))
    | .response statusCode body text =>
      if 400 ≤ statusCode then
        .error (.valueError ("D-ID API error: " ++ toString statusCode ++ " - " ++ text))
      else .ok body

/-- The normalized status shape `{status, video_url, error}` returned by
the unified `get_animation_status`. -/
structure AnimStatus where
  status : String
  video_url : Option String
  error : Option String
  deriving DecidableEq, Repr

/-- The unified `get_animation_status(provider, task_id)` (`ai_tasks.py`
lines 317-365). The transport outcomes stand for the provider's response
to the status request for the given task id. For `"heygen"` the result is
normalized from either the `data`-wrapped or the direct body shape, a
`not_found` status becomes `"processing"`, and a `ValueError` whose text
mentions 404/not-found is converted to a processing result; for any other
provider the D-ID result is normalized and every error propagates. -/
def get_animation_status (provider : String) (heygenApiKey didApiKey : String)
    (heygenAttempt : HttpAttempt HeygenStatusBody)
    (didAttempt : HttpAttempt DidStatusBody) : Except PyError AnimStatus :=
  if provider = "heygen" then
    match get_heygen_video_status heygenApiKey heygenAttempt with
    | .ok result =>
      if result.hasData then
        let status0 := result.dataStatus.getD "unknown"
        let status := if status0 = "not_found" then "processing" else status0
        .ok ⟨status, pyOrOptStr result.dataVideoUrl result.dataUrl, result.error⟩
      else
        .ok ⟨result.topStatus.getD "unknown",
             pyOrOptStr result.topVideoUrl result.topUrl, result.error⟩
    | .error (.valueError msg) =>
      if strContains msg "404" || strContains msg.toLower "not found" then
        .ok ⟨"processing", none, none⟩
      else .error (.valueError msg)
    | .error e => .error e
  else
    match get_did_talk_status didApiKey didAttempt with
    | .ok result => .ok ⟨result.status.getD "unknown", result.result_url, result.error⟩
    | .error e => .error e

/-- `AnimationStatusRequest` (`schemas.py` lines 139-141): the request
schema declares exactly the fields `task_id` and `provider`. -/
structure AnimationStatusRequest where
  task_id : String
  provider : Option String
  deriving DecidableEq, Repr

/-- Reading `request.media_id` on an `AnimationStatusRequest`: pydantic
models raise `AttributeError` for any attribute that is not a declared
field, and `media_id` is not among this schema's declared fields. -/
def readMediaIdAttr (_ : AnimationStatusRequest) : Except PyError (Option Nat) :=
  .error (.attributeError "AnimationStatusRequest" "media_id")

/-- The columns of a `media` row read by the status endpoint. -/
structure MediaRec where
  id : Nat
  animation_task_id : Option String
  deriving DecidableEq, Repr

/-- `AnimationStatusResponse` (`schemas.py` lines 144-149). -/
structure AnimationStatusResponse where
  task_id : String
  status : String
  video_url : Option String
  error : Option String
  provider : String
  deriving DecidableEq, Repr

/-- The error-suppression step of the status endpoint (`ai.py` lines
485-487): the error field is nulled whenever the status is
processing/pending and the error is truthy. -/
def suppressProcessingError (status : String) (error : Option String) : Option String :=
  if (status = "processing" ∨ status = "pending") ∧ pyTruthy error then none else error

/-- `POST /ai/animation/status` (`ai.py` lines 421-516). After the empty
`task_id` check and the provider default, the handler evaluates
`request.media_id` before entering its `try` block; the declared schema has
no such field, so the access raises `AttributeError`, which propagates to
the framework (an HTTP 500), never reaching the video-id resolution, the
provider call, or the error-suppression step. The `.ok` arm of the
attribute read embeds the remainder of the handler as written. -/
def get_animation_status_endpoint (req : AnimationStatusRequest)
    (mediaRows : List MediaRec) (useHeygen : Bool)
    (heygenApiKey didApiKey : String)
    (heygenAttempt : HttpAttempt HeygenStatusBody)
    (didAttempt : HttpAttempt DidStatusBody) :
    Except PyError AnimationStatusResponse :=
  if req.task_id = "" then .error (.http 400 "task_id is required")
  else
    let provider := match req.provider with
      | some p => p
      | none => if useHeygen then "heygen" else "d-id"
    match readMediaIdAttr req with
    | .error e => .error e
    | .ok mediaId =>
      let video_id :=
        if pyTruthyNat mediaId then
          match mediaRows.find? (fun row => row.id == mediaId.getD 0) with
          | some media =>
            if pyTruthy media.animation_task_id then media.animation_task_id.getD req.task_id
            else req.task_id
          | none => req.task_id
        else
          match mediaRows.find? (fun row => row.animation_task_id == some req.task_id) with
          | some media =>
            if pyTruthy media.animation_task_id then media.animation_task_id.getD req.task_id
            else req.task_id
          | none => req.task_id
      let _ := video_id
      match get_animation_status provider heygenApiKey didApiKey heygenAttempt didAttempt with
      | .error (.valueError msg) => .error (.http 400 msg)
      | .error _ =>
        .ok ⟨req.task_id, "error", none,
             some "Error checking animation status", provider⟩
      | .ok status_result =>
        .ok ⟨req.task_id, status_result.status, status_result.video_url,
             suppressProcessingError status_result.status status_result.error, provider⟩

/-! ## Custom voice creation (`ai_tasks.py` lines 501-568) -/

/-- The global names bound at module scope of `app/services/ai_tasks.py`:
its only module-level imports are `httpx`, the `typing` names and
`settings` (`ai_tasks.py` lines 1-6). `pathlib.Path` is not among them. -/
def aiTasksModuleGlobals : List String :=
  ["httpx", "Optional", "List", "Dict", "Tuple", "settings"]

/-- Evaluating a global name inside `ai_tasks.py`: a name that is not bound
at module scope raises `NameError`. -/
def resolveAiTasksGlobal (name : String) : Except PyError Unit :=
  if aiTasksModuleGlobals.contains name then .ok ()
  else .error (.nameError name)

/-- `pathlib.PurePath.suffix`: the extension of the final path component,
empty when the last dot is at position 0 or at the end. -/
def pathSuffix (p : String) : String :=
  let name := (p.splitOn "/").getLastD ""
  let cs := name.toList
  match ((List.range cs.length).filter (fun i => cs.getD i ' ' = '.')).getLast? with
  | some i => if 0 < i ∧ i + 1 < cs.length then String.mk (cs.drop i) else ""
  | none => ""

/-- The MIME inference of `create_custom_voice_elevenlabs` (`ai_tasks.py`
lines 526-531): `.wav` → `audio/wav`, `.m4a` → `audio/m4a`, anything
else → `audio/mpeg`. -/
def voiceUploadMime (audio_file_path : String) : String :=
  if (pathSuffix audio_file_path).toLower ∈ [".wav"] then "audio/wav"
  else if (pathSuffix audio_file_path).toLower ∈ [".m4a"] then "audio/m4a"
  else "audio/mpeg"

/-- The provider's response to the multipart POST of the audio bytes to the
voice-creation endpoint, as a function of the form fields the handler
sends: voice name, optional description, and the inferred MIME type. -/
structure VoiceAddAttempt where
  statusCode : Nat
  bodyVoiceId : Option String
  text : String
  deriving DecidableEq, Repr

/-- `create_custom_voice_elevenlabs` (`ai_tasks.py` lines 501-568). After
the API-key guard, the body's first statement is
`audio_path = Path(audio_file_path)`; `Path` is resolved against the
module's global namespace, which never imports it, so the call raises
`NameError` here. The `.ok` arm embeds the rest of the function as
written: MIME inference, the multipart upload, the non-200 check, and the
missing-`voice_id` check. -/
def create_custom_voice_elevenlabs (elevenlabsApiKey : String)
    (audio_file_path voice_name : String) (description : Option String)
    (provider : String → Option String → String → VoiceAddAttempt) :
    Except PyError String :=
  if elevenlabsApiKey = "" then .error (.valueError "ELEVENLABS_API_KEY not configured")
  else
    match resolveAiTasksGlobal "Path" with
    | .error e => .error e
    | .ok _ =>
      let mime_type := voiceUploadMime audio_file_path
      let attempt := provider voice_name description mime_type
      if attempt.statusCode ≠ 200 then
        .error (.valueError ("ElevenLabs API error " ++ toString attempt.statusCode
          ++ ": " ++ attempt.text))
      else if ¬ pyTruthy attempt.bodyVoiceId then
        .error (.valueError "ElevenLabs did not return voice_id")
      else .ok (attempt.bodyVoiceId.getD "")

/-! ## Avatar chat (`ai.py` lines 155-418) -/

/-- One row of the `memories` table (`models.py` lines 87-101), the columns
the chat and embeddings endpoints read and write. -/
structure MemoryRow where
  id : Nat
  memorial_id : Nat
  title : Option String
  content : String
  embedding_id : Option String
  source : Option String
  deriving DecidableEq, Repr

/-- The columns of a `memorials` row read by the chat endpoint. -/
structure ChatMemorialRow where
  id : Nat
  name : String
  voice_id : Option String
  deriving DecidableEq, Repr

/-- The relational state the chat endpoint works on. -/
structure ChatDB where
  memorials : List ChatMemorialRow
  memories : List MemoryRow
  deriving DecidableEq, Repr

/-- `AvatarChatRequest` (`schemas.py` lines 152-155). -/
structure AvatarChatRequest where
  memorial_id : Nat
  question : String
  include_audio : Bool
  deriving DecidableEq, Repr

/-- `AvatarChatResponse` (`schemas.py` lines 158-161). -/
structure AvatarChatResponse where
  answer : String
  audio_url : Option String
  sources : List String
  deriving DecidableEq, Repr

/-- One hit returned by `search_similar_memories`: vector id, similarity
score (opaque — the floating-point value is uninterpreted here), payload
text, payload memory id and payload title. -/
structure SearchHit where
  hitId : String
  score : Int
  text : String
  memory_id : Option Nat
  title : String
  deriving DecidableEq, Repr

/-- One context chunk handed to `generate_rag_response`. -/
structure ContextChunk where
  text : String
  memory_id : Option Nat
  score : Int
  title : Option String
  deriving DecidableEq, Repr

/-- The external AI services the chat endpoint calls, abstracted as
deterministic functions of their request data. -/
structure ChatProviders where
  /-- `get_embedding(text)` (`ai_tasks.py` lines 370-400); raises
  `ValueError` (carried as the error message) on failure. -/
  embed : String → Except String (List Int)
  /-- `upsert_memory_embedding(memory_id, memorial_id, text, embedding,
  title)` (`ai_tasks.py` lines 745-807); returns the vector id. -/
  upsert : Nat → Nat → String → List Int → Option String → Except String String
  /-- `search_similar_memories(memorial_id, query_embedding, top_k=5,
  min_score=0.2)` (`ai_tasks.py` lines 810-890); swallows provider errors
  into an empty list. -/
  search : Nat → List Int → List SearchHit
  /-- `generate_rag_response(question, context_chunks, memorial_name)`
  (`ai_tasks.py` lines 403-496): answer text and `memory_{id}` tags. -/
  rag : String → List ContextChunk → Option String → Except String (String × List String)
  /-- `generate_speech_elevenlabs(answer, voice_id)` (`ai_tasks.py` lines
  571-688); the audio bytes themselves are not modelled. -/
  tts : String → String → Except String Unit
  /-- The generated audio file name `chat_{memorial_id}_{hash(question)}.mp3`
  (Python string hashing abstracted). -/
  audioFileName : Nat → String → String

/-- The provider calls the chat endpoint can perform, in order. -/
inductive ExtCall where
  | getEmbedding (text : String)
  | upsertEmbedding (memory_id memorial_id : Nat)
  | vectorSearch (memorial_id : Nat)
  | ragCompletion (question : String)
  | ttsSpeech (voice_id : String)
  deriving DecidableEq, Repr

/-- The per-memory body of the opportunistic embedding backfill (`ai.py`
lines 235-261): for a memory whose `embedding_id` is falsy, compute an
embedding and upsert it, recording the vector id on success; errors are
collected and logged, never raised. Returns the (possibly updated) row,
the provider calls made, and 1 when an embedding was created. -/
def backfillMemory (pv : ChatProviders) (memorial_id : Nat) (m : MemoryRow) :
    MemoryRow × List ExtCall × Nat :=
  if pyTruthy m.embedding_id then (m, [], 0)
  else
    match pv.embed m.content with
    | .error _ => (m, [.getEmbedding m.content], 0)
    | .ok emb =>
      match pv.upsert m.id memorial_id m.content emb m.title with
      | .error _ => (m, [.getEmbedding m.content, .upsertEmbedding m.id memorial_id], 0)
      | .ok vid => ({ m with embedding_id := some vid },
                    [.getEmbedding m.content, .upsertEmbedding m.id memorial_id], 1)

/-- The backfill loop over `all_memories` (`ai.py` lines 235-261). -/
def backfillAll (pv : ChatProviders) (memorial_id : Nat) :
    List MemoryRow → List MemoryRow × List ExtCall × Nat
  | [] => ([], [], 0)
  | m :: rest =>
    let (m2, cs, n) := backfillMemory pv memorial_id m
    let (rest2, cs2, n2) := backfillAll pv memorial_id rest
    (m2 :: rest2, cs ++ cs2, n + n2)

/-- The context-chunk construction (`ai.py` lines 330-350): for each hit
with a truthy payload memory id, re-fetch the full row from the relational
store (skipping hits whose row is gone); otherwise fall back to the
payload text when it is non-empty. -/
def chunksOf (rows : List MemoryRow) : List SearchHit → List ContextChunk
  | [] => []
  | hit :: rest =>
    let tail := chunksOf rows rest
    if pyTruthyNat hit.memory_id then
      match rows.find? (fun r => r.id == hit.memory_id.getD 0) with
      | some row => ⟨row.content, some row.id, hit.score, row.title⟩ :: tail
      | none => tail
    else if hit.text ≠ "" then
      ⟨hit.text, hit.memory_id, hit.score, some hit.title⟩ :: tail
    else tail

/-- The human-readable source labels (`ai.py` lines 369-377). -/
def sourcesOf (chunks : List ContextChunk) : List String :=
  chunks.filterMap (fun c =>
    if pyTruthyNat c.memory_id then
      some ("Воспоминание #" ++ toString (c.memory_id.getD 0)
        ++ (match c.title with
            | some t => if t ≠ "" then ": " ++ t else ""
            | none => ""))
    else none)

/-- The canned answer for a memorial with zero memories (`ai.py` lines
183-187). -/
def noMemoriesAnswer : String :=
  "У меня пока нет информации об этом человеке. Пожалуйста, добавьте воспоминания, чтобы я мог отвечать на вопросы."

/-- The answer for memories that exist but still lack embeddings (`ai.py`
lines 292-302). -/
def embeddingsPendingAnswer (total without : Nat) : String :=
  "Воспоминания добавлены (" ++ toString total ++ "), но embeddings еще не созданы ("
    ++ toString without ++ " без embeddings)."
    ++ (if without > 0 then
          " Пожалуйста, подождите несколько секунд и попробуйте снова. Если проблема сохраняется, проверьте логи сервера."
        else "")

/-- The canned answer when retrieval finds nothing (`ai.py` lines 321-326
and 352-357). -/
def noInfoAnswer : String := "У меня нет информации на эту тему."

/-- `POST /ai/avatar/chat` (`ai.py` lines 155-418). 404 when the memorial
is absent; the fixed no-memories answer when the memorial has zero Memory
rows (returned before any provider call); otherwise opportunistic
embedding backfill for rows lacking one, question embedding, vector
search, context-chunk construction from the relational rows, RAG answer
synthesis, source labels, and optional speech synthesis that degrades to a
text-only answer on failure. A `ValueError` from `get_embedding` or
`generate_rag_response` escapes the handler's inner returns and is turned
into an HTTP 500 by the enclosing `except Exception` handler. Returns the
response together with the ordered list of provider calls performed. -/
def avatar_chat (db : ChatDB) (req : AvatarChatRequest) (pv : ChatProviders)
    (useS3 : Bool) (s3Bucket defaultVoiceId : String) :
    Except PyError (AvatarChatResponse × List ExtCall) :=
  match db.memorials.find? (fun m => m.id == req.memorial_id) with
  | none => .error (.http 404 "Memorial not found")
  | some memorial =>
    let all_memories := db.memories.filter (fun m => m.memorial_id == req.memorial_id)
    if all_memories.isEmpty then
      .ok (⟨noMemoriesAnswer, none, []⟩, [])
    else
      let withEmb0 := all_memories.filter (fun m => pyTruthy m.embedding_id)
      let backfilled :=
        if withEmb0.length < all_memories.length then
          backfillAll pv req.memorial_id all_memories
        else (all_memories, [], 0)
      let rows := backfilled.1
      let backfillCalls := backfilled.2.1
      let memories := rows.filter (fun m => pyTruthy m.embedding_id)
      if memories.isEmpty then
        .ok (⟨embeddingsPendingAnswer all_memories.length
                (all_memories.length - memories.length), none, []⟩, backfillCalls)
      else
        match pv.embed req.question with
        | .error msg => .error (.http 500 ("Error processing chat request: " ++ msg))
        | .ok question_embedding =>
          let calls1 := backfillCalls ++ [.getEmbedding req.question,
                                          .vectorSearch req.memorial_id]
          let similar_memories := pv.search req.memorial_id question_embedding
          if similar_memories.isEmpty then
            .ok (⟨noInfoAnswer, none, []⟩, calls1)
          else
            let context_chunks := chunksOf rows similar_memories
            if context_chunks.isEmpty then
              .ok (⟨noInfoAnswer, none, []⟩, calls1)
            else
              match pv.rag req.question context_chunks (some memorial.name) with
              | .error msg => .error (.http 500 ("Error processing chat request: " ++ msg))
              | .ok (answer, _) =>
                let calls2 := calls1 ++ [.ragCompletion req.question]
                let sources := sourcesOf context_chunks
                if req.include_audio then
                  let voice_id := match memorial.voice_id with
                    | some v => if v ≠ "" then v else defaultVoiceId
                    | none => defaultVoiceId
                  match pv.tts answer voice_id with
                  | .ok _ =>
                    let fname := pv.audioFileName req.memorial_id req.question
                    let audio_url := if useS3 then "s3://" ++ s3Bucket ++ "/audio/" ++ fname
                                     else "/api/v1/media/audio/" ++ fname
                    .ok (⟨answer, some audio_url, sources⟩, calls2 ++ [.ttsSpeech voice_id])
                  | .error _ =>
                    .ok (⟨answer, none, sources⟩, calls2 ++ [.ttsSpeech voice_id])
                else
                  .ok (⟨answer, none, sources⟩, calls2)

/-! ## Embedding deletion (`embeddings.py` lines 86-123) -/

/-- `DELETE /embeddings/memories/{memory_id}` (`embeddings.py` lines
86-123): 404 when the memory row is absent, 400 when its `embedding_id` is
falsy; otherwise `delete_memory_embedding(memory_id, memory.memorial_id)`
(which swallows provider exceptions into a boolean — `deleteOk`) decides
between clearing the row's `embedding_id` and committing, or a 500 with no
write. Returns the updated `memories` rows on success. -/
def delete_memory_embedding_endpoint (rows : List MemoryRow) (memory_id : Nat)
    (deleteOk : Nat → Nat → Bool) : Except PyError (List MemoryRow) :=
  match rows.find? (fun m => m.id == memory_id) with
  | none => .error (.http 404 "Memory not found")
  | some memory =>
    if ¬ pyTruthy memory.embedding_id then
      .error (.http 400 "Memory has no embedding")
    else if deleteOk memory_id memory.memorial_id then
      .ok (rows.map (fun m => if m.id == memory_id then { m with embedding_id := none } else m))
    else
      .error (.http 500 "Failed to delete embedding")

/-! ## Deterministic vector ids (`ai_tasks.py` lines 758-764 and 901-905)

`uuid.uuid5(uuid.NAMESPACE_DNS, name)` is the RFC 4122 name-based UUID:
SHA-1 of the namespace bytes followed by the UTF-8 name, truncated to 16
bytes with the version and variant bits set. Bytes are `Nat < 256`, 32-bit
words are `Nat` reduced modulo `2 ^ 32`. -/

/-- Reduce modulo `2 ^ 32`. -/
def w32 (x : Nat) : Nat := x % 4294967296

/-- 32-bit left rotation. -/
def rotl32 (n x : Nat) : Nat :=
  Nat.lor (w32 (x <<< n)) (x >>> (32 - n))

/-- 32-bit bitwise complement. -/
def not32 (x : Nat) : Nat := Nat.xor x 4294967295

/-- The SHA-1 round function and round constant for round `i`. -/
def sha1FK (i b c d : Nat) : Nat × Nat :=
  if i < 20 then (Nat.lor (Nat.land b c) (Nat.land (not32 b) d), 1518500249)
  else if i < 40 then (Nat.xor (Nat.xor b c) d, 1859775393)
  else if i < 60 then
    (Nat.lor (Nat.lor (Nat.land b c) (Nat.land b d)) (Nat.land c d), 2400959708)
  else (Nat.xor (Nat.xor b c) d, 3395469782)

/-- The 16 big-endian 32-bit words of one 64-byte chunk. -/
def chunkWords (chunk : List Nat) : List Nat :=
  (List.range 16).map (fun i =>
    (chunk.getD (4 * i) 0) <<< 24 + (chunk.getD (4 * i + 1) 0) <<< 16
      + (chunk.getD (4 * i + 2) 0) <<< 8 + chunk.getD (4 * i + 3) 0)

/-- Extend 16 schedule words to 80. -/
def sha1Extend (ws : List Nat) : List Nat :=
  (List.range 64).foldl (fun acc _ =>
    let n := acc.length
    acc ++ [rotl32 1 (Nat.xor (Nat.xor (acc.getD (n - 3) 0) (acc.getD (n - 8) 0))
      (Nat.xor (acc.getD (n - 14) 0) (acc.getD (n - 16) 0)))]) ws

/-- The 80 SHA-1 rounds on a state tuple `(a, b, c, d, e)`. -/
def sha1Rounds (w : List Nat) (st : Nat × Nat × Nat × Nat × Nat) :
    Nat × Nat × Nat × Nat × Nat :=
  (List.range 80).foldl
    (fun st i =>
      let (a, b, c, d, e) := st
      let fk := sha1FK i b c d
      let temp := w32 (rotl32 5 a + fk.1 + e + fk.2 + w.getD i 0)
      (temp, a, rotl32 30 b, c, d))
    st

/-- Compress one 64-byte chunk into the hash state. -/
def sha1Compress (h : Nat × Nat × Nat × Nat × Nat) (chunk : List Nat) :
    Nat × Nat × Nat × Nat × Nat :=
  let w := sha1Extend (chunkWords chunk)
  let (h0, h1, h2, h3, h4) := h
  let (a, b, c, d, e) := sha1Rounds w h
  (w32 (h0 + a), w32 (h1 + b), w32 (h2 + c), w32 (h3 + d), w32 (h4 + e))

/-- Big-endian 8-byte encoding. -/
def be64 (n : Nat) : List Nat :=
  (List.range 8).map (fun i => (n >>> (8 * (7 - i))) % 256)

/-- SHA-1 padding: `0x80`, zeros to 56 mod 64, then the bit length. -/
def sha1Pad (msg : List Nat) : List Nat :=
  let z := (55 + 64 - msg.length % 64) % 64
  msg ++ [128] ++ List.replicate z 0 ++ be64 (8 * msg.length)

/-- Split into 64-byte chunks (fuelled by the length so that the
recursion is structural and reduces in the kernel). -/
def listChunks64Aux : Nat → List Nat → List (List Nat)
  | 0, _ => []
  | _, [] => []
  | fuel + 1, a :: l => (a :: l).take 64 :: listChunks64Aux fuel ((a :: l).drop 64)

/-- Split into 64-byte chunks. -/
def listChunks64 (l : List Nat) : List (List Nat) :=
  listChunks64Aux l.length l

/-- The big-endian bytes of one 32-bit word. -/
def wordBytes (h : Nat) : List Nat :=
  (List.range 4).map (fun i => (h >>> (8 * (3 - i))) % 256)

/-- SHA-1 digest (20 bytes) of a byte list. -/
def sha1Bytes (msg : List Nat) : List Nat :=
  let st := (listChunks64 (sha1Pad msg)).foldl sha1Compress
    (1732584193, 4023233417, 2562383102, 271733878, 3285377520)
  wordBytes st.1 ++ wordBytes st.2.1 ++ wordBytes st.2.2.1
    ++ wordBytes st.2.2.2.1 ++ wordBytes st.2.2.2.2

/-- The 16 bytes of `uuid.NAMESPACE_DNS`
(`6ba7b810-9dad-11d1-80b4-00c04fd430c8`). -/
def namespaceDNSBytes : List Nat :=
  [107, 167, 184, 16, 157, 173, 17, 209, 128, 180, 0, 192, 79, 212, 48, 200]

def hexDigitChar (n : Nat) : Char := "0123456789abcdef".toList.getD n '0'

def byteHex (b : Nat) : String := String.mk [hexDigitChar (b / 16), hexDigitChar (b % 16)]

def bytesHex (bs : List Nat) : String := String.join (bs.map byteHex)

/-- UTF-8 bytes of an ASCII string (the id strings here are ASCII). -/
def asciiBytes (s : String) : List Nat := s.toList.map Char.toNat

/-- `str(uuid.uuid5(namespace, name))`: SHA-1 of namespace bytes plus name
bytes, truncated to 16 bytes, version nibble set to 5, RFC 4122 variant
bits set, formatted as lowercase hex with dashes. -/
def uuid5String (namespaceBytes nameBytes : List Nat) : String :=
  let digest := (sha1Bytes (namespaceBytes ++ nameBytes)).take 16
  let b6 := Nat.lor (Nat.land (digest.getD 6 0) 15) 80
  let b8 := Nat.lor (Nat.land (digest.getD 8 0) 63) 128
  let bs := (digest.set 6 b6).set 8 b8
  bytesHex (bs.take 4) ++ "-" ++ bytesHex ((bs.drop 4).take 2) ++ "-"
    ++ bytesHex ((bs.drop 6).take 2) ++ "-" ++ bytesHex ((bs.drop 8).take 2)
    ++ "-" ++ bytesHex (bs.drop 10)

/-- The vector id computed by `upsert_memory_embedding` (`ai_tasks.py`
lines 758-764):
`str(uuid.uuid5(uuid.NAMESPACE_DNS, f"memory_{memorial_id}_{memory_id}"))`. -/
def upsertVectorId (memory_id memorial_id : Nat) : String :=
  uuid5String namespaceDNSBytes
    (asciiBytes ("memory_" ++ toString memorial_id ++ "_" ++ toString memory_id))

/-- The vector id recomputed by `delete_memory_embedding` (`ai_tasks.py`
lines 901-905), built the same way from the same id string. -/
def deleteVectorId (memory_id memorial_id : Nat) : String :=
  uuid5String namespaceDNSBytes
    (asciiBytes ("memory_" ++ toString memorial_id ++ "_" ++ toString memory_id))

set_option maxRecDepth 4000 in
/-- Cross-check of the uuid5 implementation against CPython:
`uuid.uuid5(uuid.NAMESPACE_DNS, "memory_1_2")` is
`19de628f-e627-534c-8da1-b296d06782a9`. -/
example : upsertVectorId 2 1 = "19de628f-e627-534c-8da1-b296d06782a9" := by decide

/-! ## Helper lemmas -/

lemma forall₂_self_map {α β : Type} (f : α → β) (P : α → β → Prop) :
    ∀ l : List α, (∀ a ∈ l, P a (f a)) → List.Forall₂ P l (l.map f)
  | [], _ => List.Forall₂.nil
  | a :: t, h =>
    List.Forall₂.cons (h a (by simp))
      (forall₂_self_map f P t (fun x hx => h x (by simp [hx])))

lemma tripleEq_iff {r s : FamilyRelationship} :
    tripleEq r s = true ↔
      r.memorial_id = s.memorial_id ∧ r.related_memorial_id = s.related_memorial_id ∧
        r.relationship_type = s.relationship_type := by
  simp [tripleEq, and_assoc]

lemma matchesTriple_iff {a b : Nat} {t : RelationshipType} {r : FamilyRelationship} :
    matchesTriple a b t r = true ↔
      r.memorial_id = a ∧ r.related_memorial_id = b ∧ r.relationship_type = t := by
  simp [matchesTriple, and_assoc]

lemma noDupTriples_iff {l : List FamilyRelationship} :
    noDupTriples l = true ↔ l.Pairwise (fun r s => tripleEq r s = false) := by
  induction l with
  | nil => simp [noDupTriples]
  | cons r rest ih =>
    simp [noDupTriples, List.all_eq_true, ih, List.pairwise_cons]

lemma uniqueIdsB_iff {l : List FamilyRelationship} :
    uniqueIdsB l = true ↔ l.Pairwise (fun r s => r.id ≠ s.id) := by
  induction l with
  | nil => simp [uniqueIdsB]
  | cons r rest ih =>
    simp [uniqueIdsB, List.all_eq_true, ih, List.pairwise_cons]

lemma find?_id_eq_of_unique :
    ∀ {l : List FamilyRelationship}, uniqueIdsB l = true →
      ∀ {e : FamilyRelationship}, e ∈ l → l.find? (fun r => r.id == e.id) = some e := by
  intro l
  induction l with
  | nil => intro _ e he; simp at he
  | cons r rest ih =>
    intro hu e he
    have hu' := uniqueIdsB_iff.mp hu
    rw [List.pairwise_cons] at hu'
    rcases List.mem_cons.mp he with rfl | hmem
    · simp [List.find?_cons]
    · have hstep : List.find? (fun x => x.id == e.id) (r :: rest) =
          List.find? (fun x => x.id == e.id) rest :=
        List.find?_cons_of_neg rest (by simpa using hu'.1 e hmem)
      rw [hstep]
      exact ih (uniqueIdsB_iff.mpr hu'.2) hmem

lemma matches_same_tripleEq {a b : Nat} {t : RelationshipType}
    {r e : FamilyRelationship} (hr : matchesTriple a b t r = true)
    (he : matchesTriple a b t e = true) : tripleEq r e = true := by
  obtain ⟨h1, h2, h3⟩ := matchesTriple_iff.mp hr
  obtain ⟨h4, h5, h6⟩ := matchesTriple_iff.mp he
  exact tripleEq_iff.mpr ⟨by rw [h1, h4], by rw [h2, h5], by rw [h3, h6]⟩

lemma find?_matches_of_noDup :
    ∀ {l : List FamilyRelationship}, noDupTriples l = true →
      ∀ {e : FamilyRelationship} {a b : Nat} {t : RelationshipType}, e ∈ l →
        matchesTriple a b t e = true → l.find? (matchesTriple a b t) = some e := by
  intro l
  induction l with
  | nil => intro _ e a b t he; simp at he
  | cons r rest ih =>
    intro hd e a b t he hm
    have hd' := noDupTriples_iff.mp hd
    rw [List.pairwise_cons] at hd'
    by_cases hr : matchesTriple a b t r = true
    · rw [List.find?_cons_of_pos _ hr]
      rcases List.mem_cons.mp he with rfl | hmem
      · rfl
      · exact absurd (matches_same_tripleEq hr hm) (by simp [hd'.1 e hmem])
    · rw [List.find?_cons_of_neg _ hr]
      rcases List.mem_cons.mp he with rfl | hmem
      · exact absurd hm hr
      · exact ih (noDupTriples_iff.mpr hd'.2) hmem hm

lemma countTriple_eq_one_of_noDup :
    ∀ {l : List FamilyRelationship}, noDupTriples l = true →
      ∀ {e : FamilyRelationship} {a b : Nat} {t : RelationshipType}, e ∈ l →
        matchesTriple a b t e = true → countTriple l a b t = 1 := by
  intro l
  induction l with
  | nil => intro _ e a b t he; simp at he
  | cons r rest ih =>
    intro hd e a b t he hm
    have hd' := noDupTriples_iff.mp hd
    rw [List.pairwise_cons] at hd'
    by_cases hr : matchesTriple a b t r = true
    · have hrest : countTriple rest a b t = 0 := by
        unfold countTriple
        rw [List.length_eq_zero]
        rw [List.filter_eq_nil_iff]
        intro x hx
        intro hmx
        exact absurd (matches_same_tripleEq hr hmx) (by simp [hd'.1 x hx])
      have hcons : countTriple (r :: rest) a b t = 1 + countTriple rest a b t := by
        simp only [countTriple, List.filter_cons, hr, if_pos, List.length_cons]
        omega
      omega
    · rcases List.mem_cons.mp he with rfl | hmem
      · exact absurd hm hr
      · have : countTriple (r :: rest) a b t = countTriple rest a b t := by
          simp [countTriple, List.filter_cons, hr]
        rw [this]
        exact ih (noDupTriples_iff.mpr hd'.2) hmem hm

/-- Eliminates a successful `create_relationship` run into the shape of the
committed state. -/
lemma create_relationship_ok_elim {db : FamilyDB} {A B : Nat} {t : RelationshipType}
    {notes : Option String} {db2 : FamilyDB} {e : FamilyRelationship}
    (h : create_relationship db A B t notes = .ok (db2, e)) :
    db2.relationships = db.relationships ++
      [⟨db.nextId, A, B, t, notes⟩, ⟨db.nextId + 1, B, A, reverseTypeOf t, notes⟩] ∧
    noDupTriples db2.relationships = true ∧
    e = ⟨db.nextId, A, B, t, notes⟩ ∧ db2.memorials = db.memorials ∧
    db2.nextId = db.nextId + 2 := by
  unfold create_relationship at h
  split at h
  · exact absurd h (by simp)
  split at h
  · exact absurd h (by simp)
  split at h
  · exact absurd h (by simp)
  split at h
  · exact absurd h (by simp)
  dsimp only at h
  split at h
  case isTrue hnd =>
    have h' := Except.ok.inj h
    rw [Prod.mk.injEq] at h'
    obtain ⟨h1, h2⟩ := h'
    subst h1
    subst h2
    exact ⟨rfl, hnd, rfl, rfl, rfl⟩
  case isFalse _ => exact absurd h (by simp)

/-- Introduces a successful `create_relationship` run from its guards. -/
lemma create_relationship_ok_intro {db : FamilyDB} {A B : Nat} {t : RelationshipType}
    {notes : Option String}
    (hA : (findMemorial db A).isSome = true) (hB : (findMemorial db B).isSome = true)
    (hne : A ≠ B)
    (hnodup : db.relationships.find? (matchesTriple A B t) = none)
    (hcommit : noDupTriples (db.relationships ++
      [⟨db.nextId, A, B, t, notes⟩, ⟨db.nextId + 1, B, A, reverseTypeOf t, notes⟩]) = true) :
    create_relationship db A B t notes =
      .ok ({ memorials := db.memorials,
             relationships := db.relationships ++
               [⟨db.nextId, A, B, t, notes⟩,
                ⟨db.nextId + 1, B, A, reverseTypeOf t, notes⟩],
             nextId := db.nextId + 2 }, ⟨db.nextId, A, B, t, notes⟩) := by
  have hA' : (findMemorial db A).isNone = false := by
    cases hfa : findMemorial db A <;> simp_all
  have hB' : (findMemorial db B).isNone = false := by
    cases hfb : findMemorial db B <;> simp_all
  simp [create_relationship, hA', hB', hne, hnodup, hcommit]

lemma reverseTypeOf_involutive (t : RelationshipType) :
    reverseTypeOf (reverseTypeOf t) = t := by
  cases t <;> rfl

/-- Deleting either edge of a mirrored pair (under primary-key uniqueness
and the `uq_relationship` invariant) removes exactly the pair. -/
lemma delete_mirrored {db : FamilyDB} {e1 e2 : FamilyRelationship}
    (hU : uniqueIdsB db.relationships = true)
    (hT : noDupTriples db.relationships = true)
    (h1 : e1 ∈ db.relationships) (h2 : e2 ∈ db.relationships)
    (hm : e2.memorial_id = e1.related_memorial_id)
    (hr : e2.related_memorial_id = e1.memorial_id)
    (ht : e2.relationship_type = reverseTypeOf e1.relationship_type) :
    ∃ db2, delete_relationship db e1.id = .ok db2 ∧
      ∀ r, r ∈ db2.relationships ↔
        (r ∈ db.relationships ∧ r.id ≠ e1.id ∧ r.id ≠ e2.id) := by
  have hfind : db.relationships.find? (fun r => r.id == e1.id) = some e1 :=
    find?_id_eq_of_unique hU h1
  have hmatch : matchesTriple e1.related_memorial_id e1.memorial_id
      (reverseTypeOf e1.relationship_type) e2 = true :=
    matchesTriple_iff.mpr ⟨hm, hr, ht⟩
  have hfind2 : db.relationships.find?
      (matchesTriple e1.related_memorial_id e1.memorial_id
        (reverseTypeOf e1.relationship_type)) = some e2 :=
    find?_matches_of_noDup hT h2 hmatch
  refine ⟨{ memorials := db.memorials,
            relationships := (db.relationships.filter
                (fun r => !(r.id == e2.id))).filter (fun r => !(r.id == e1.id)),
            nextId := db.nextId }, ?_, ?_⟩
  · simp [delete_relationship, hfind, hfind2]
  · intro r
    simp only [List.mem_filter]
    constructor
    · rintro ⟨⟨hmem, hid2⟩, hid1⟩
      refine ⟨hmem, ?_, ?_⟩ <;> simp_all
    · rintro ⟨hmem, hid1, hid2⟩
      refine ⟨⟨hmem, ?_⟩, ?_⟩ <;> simp_all

/-! ## Claims -/

/-- C6: for every `memorial_id` and `memory_id`, the vector identifier
computed by `upsert_memory_embedding` (the version-5 UUID over the DNS
namespace of the string `memory_{memorial_id}_{memory_id}`) equals the
identifier recomputed by `delete_memory_embedding` for the same pair, so a
delete after an upsert of the same (memory, memorial) pair targets exactly
the point the upsert stored. -/
theorem upsert_delete_vector_ids_agree (memory_id memorial_id : Nat) :
    upsertVectorId memory_id memorial_id = deleteVectorId memory_id memorial_id :=
  rfl

/-- C2 (behavior of the code at a validation failure): for any upload whose
memorial exists, whose extension is allowed, whose decoded size is within
the limit, and whose image content fails `validate_image_file`, the
endpoint responds 500 — not 400 — because the `HTTPException(400)` raised
inside the `try` block is caught by the blanket `except Exception` handler
and re-raised as `HTTPException(500)`. The partial file is deleted. -/
theorem upload_media_validation_failure_gives_500 (ctx : UploadCtx)
    (hmem : ctx.memorialExists = true)
    (hext : ctx.allowedExtensions.contains ctx.fileExt = true)
    (hsize : ctx.contentsLen ≤ ctx.maxUploadSize)
    (himg : pyStartsWith ctx.contentType "image/" = true)
    (hval : ctx.photoValid = false) :
    upload_media ctx = ⟨500, false⟩ := by
  have hnotgt : ¬ ctx.contentsLen > ctx.maxUploadSize := Nat.not_lt.mpr hsize
  have hmemExt : ctx.fileExt ∈ ctx.allowedExtensions := by
    simpa using hext
  simp [upload_media, uploadTryBody, get_media_type_from_mime, hmem, hmemExt, himg,
    hval, hnotgt]

/-- Witness for the C2 theorem at a concrete failing upload. -/
theorem upload_media_validation_failure_gives_500_witness :
    upload_media c2FailingUpload = ⟨500, false⟩ :=
  upload_media_validation_failure_gives_500 c2FailingUpload (by decide) (by decide)
    (by decide) (by decide) (by decide)

/-- C3 (behavior of the code): for every request to the animation-status
endpoint carrying a non-empty `task_id`, the handler evaluates
`request.media_id`, which is not a declared field of
`AnimationStatusRequest`, so an `AttributeError` escapes to the framework
(HTTP 500); the endpoint never reaches the video-id resolution chain, the
provider call, or a normalized status response. -/
theorem animation_status_endpoint_always_attribute_error
    (req : AnimationStatusRequest) (mediaRows : List MediaRec) (useHeygen : Bool)
    (heygenApiKey didApiKey : String) (heygenAttempt : HttpAttempt HeygenStatusBody)
    (didAttempt : HttpAttempt DidStatusBody)
    (h : req.task_id ≠ "") :
    get_animation_status_endpoint req mediaRows useHeygen heygenApiKey didApiKey
        heygenAttempt didAttempt =
      .error (.attributeError "AnimationStatusRequest" "media_id") := by
  simp [get_animation_status_endpoint, readMediaIdAttr, h]

/-- Witness for the C3 theorem at a concrete request. -/
theorem animation_status_endpoint_always_attribute_error_witness :
    get_animation_status_endpoint ⟨"task-42", some "heygen"⟩
        [⟨7, some "video-99"⟩] true "hk" "dk"
        (.response 200 ⟨true, some "completed", some "http://v", none, none, none, none, none⟩ "")
        (.response 200 ⟨some "done", some "http://v", none⟩ "") =
      .error (.attributeError "AnimationStatusRequest" "media_id") :=
  animation_status_endpoint_always_attribute_error ⟨"task-42", some "heygen"⟩
    [⟨7, some "video-99"⟩] true "hk" "dk"
    (.response 200 ⟨true, some "completed", some "http://v", none, none, none, none, none⟩ "")
    (.response 200 ⟨some "done", some "http://v", none⟩ "") (by decide)

/-- C4 (behavior of the code): every call to
`create_custom_voice_elevenlabs` with a configured API key raises
`NameError` on its first statement `Path(audio_file_path)`, because
`ai_tasks.py` never imports `pathlib.Path`; the MIME inference, the
multipart upload, and the voice-id extraction are never reached. -/
theorem create_custom_voice_raises_name_error (elevenlabsApiKey : String)
    (audio_file_path voice_name : String) (description : Option String)
    (provider : String → Option String → String → VoiceAddAttempt)
    (hkey : elevenlabsApiKey ≠ "") :
    create_custom_voice_elevenlabs elevenlabsApiKey audio_file_path voice_name
        description provider =
      .error (.nameError "Path") := by
  simp [create_custom_voice_elevenlabs, resolveAiTasksGlobal, aiTasksModuleGlobals, hkey]

/-- Witness for the C4 theorem at a concrete call. -/
theorem create_custom_voice_raises_name_error_witness :
    create_custom_voice_elevenlabs "el-key" "uploads/voices/voice_1_ab.wav" "Ivan Voice"
        (some "Custom voice for Ivan") (fun _ _ _ => ⟨200, some "voice-123", ""⟩) =
      .error (.nameError "Path") :=
  create_custom_voice_raises_name_error "el-key" "uploads/voices/voice_1_ab.wav"
    "Ivan Voice" (some "Custom voice for Ivan")
    (fun _ _ _ => ⟨200, some "voice-123", ""⟩) (by decide)

/-- C7: for every existing memorial with zero Memory rows, the chat
endpoint returns HTTP 200 with the fixed no-information answer and an
empty sources list, and the list of provider calls performed is empty — no
embedding computation and no vector search happen. -/
theorem avatar_chat_no_memories (db : ChatDB) (req : AvatarChatRequest)
    (pv : ChatProviders) (useS3 : Bool) (s3Bucket defaultVoiceId : String)
    (memorial : ChatMemorialRow)
    (hfind : db.memorials.find? (fun m => m.id == req.memorial_id) = some memorial)
    (hempty : db.memories.filter (fun m => m.memorial_id == req.memorial_id) = []) :
    avatar_chat db req pv useS3 s3Bucket defaultVoiceId =
      .ok (⟨noMemoriesAnswer, none, []⟩, []) := by
  simp [avatar_chat, hfind, hempty]

/-- Witness for the C7 theorem at a concrete database and request. -/
theorem avatar_chat_no_memories_witness :
    avatar_chat ⟨[⟨5, "Ivan", none⟩], [⟨9, 6, none, "text", none, some "user"⟩]⟩
        ⟨5, "Кем он был?", false⟩
        ⟨fun _ => .ok [1], fun _ _ _ _ _ => .ok "vid", fun _ _ => [],
          fun _ _ _ => .ok ("answer", []), fun _ _ => .ok (), fun _ _ => "a.mp3"⟩
        false "bucket" "default-voice" =
      .ok (⟨noMemoriesAnswer, none, []⟩, []) :=
  avatar_chat_no_memories ⟨[⟨5, "Ivan", none⟩], [⟨9, 6, none, "text", none, some "user"⟩]⟩
    ⟨5, "Кем он был?", false⟩
    ⟨fun _ => .ok [1], fun _ _ _ _ _ => .ok "vid", fun _ _ => [],
      fun _ _ _ => .ok ("answer", []), fun _ _ => .ok (), fun _ _ => "a.mp3"⟩
    false "bucket" "default-voice" ⟨5, "Ivan", none⟩ (by decide) (by decide)

/-- C8: deleting a memory's embedding returns 400 and changes nothing when
`embedding_id` is null; with an `embedding_id` present and a successful
vector-store deletion it clears exactly that row's `embedding_id` and
leaves every other field (and every other row) unchanged; a failed
vector-store deletion yields 500 with no write. -/
theorem delete_embedding_endpoint_behavior
    (rows : List MemoryRow) (memory_id : Nat) (deleteOk : Nat → Nat → Bool)
    (memory : MemoryRow)
    (hfind : rows.find? (fun m => m.id == memory_id) = some memory) :
    (memory.embedding_id = none →
      delete_memory_embedding_endpoint rows memory_id deleteOk =
        .error (.http 400 "Memory has no embedding")) ∧
    (∀ s, memory.embedding_id = some s → s ≠ "" →
      (deleteOk memory_id memory.memorial_id = true →
        ∃ rows', delete_memory_embedding_endpoint rows memory_id deleteOk = .ok rows' ∧
          List.Forall₂ (fun m m2 =>
            m2.id = m.id ∧ m2.memorial_id = m.memorial_id ∧ m2.title = m.title ∧
            m2.content = m.content ∧ m2.source = m.source ∧
            (m.id = memory_id → m2.embedding_id = none) ∧
            (m.id ≠ memory_id → m2.embedding_id = m.embedding_id)) rows rows') ∧
      (deleteOk memory_id memory.memorial_id = false →
        delete_memory_embedding_endpoint rows memory_id deleteOk =
          .error (.http 500 "Failed to delete embedding"))) := by
  constructor
  · intro hnone
    simp [delete_memory_embedding_endpoint, hfind, hnone, pyTruthy]
  · intro s hs hne
    have htruthy : pyTruthy memory.embedding_id = true := by
      simp [pyTruthy, hs, hne]
    constructor
    · intro hok
      refine ⟨rows.map (fun m => if m.id == memory_id then { m with embedding_id := none } else m),
        by simp [delete_memory_embedding_endpoint, hfind, htruthy, hok], ?_⟩
      apply forall₂_self_map
      intro m _
      by_cases hid : m.id = memory_id <;> simp [hid]
    · intro hfail
      simp [delete_memory_embedding_endpoint, hfind, htruthy, hfail]

/-- Witness for the C8 theorem at a concrete memory table (all three
branches instantiated). -/
theorem delete_embedding_endpoint_behavior_witness :
    (delete_memory_embedding_endpoint
        [⟨1, 4, some "t", "c", none, none⟩] 1 (fun _ _ => true) =
      .error (.http 400 "Memory has no embedding")) ∧
    (∃ rows', delete_memory_embedding_endpoint
        [⟨1, 4, some "t", "c", some "vec-1", none⟩, ⟨2, 4, none, "c2", some "vec-2", none⟩]
        1 (fun _ _ => true) = .ok rows' ∧
      List.Forall₂ (fun (m m2 : MemoryRow) =>
        m2.id = m.id ∧ m2.memorial_id = m.memorial_id ∧ m2.title = m.title ∧
        m2.content = m.content ∧ m2.source = m.source ∧
        (m.id = 1 → m2.embedding_id = none) ∧
        (m.id ≠ 1 → m2.embedding_id = m.embedding_id))
        [⟨1, 4, some "t", "c", some "vec-1", none⟩, ⟨2, 4, none, "c2", some "vec-2", none⟩]
        rows') ∧
    (delete_memory_embedding_endpoint
        [⟨1, 4, some "t", "c", some "vec-1", none⟩] 1 (fun _ _ => false) =
      .error (.http 500 "Failed to delete embedding")) := by
  refine ⟨?_, ?_, ?_⟩
  · exact (delete_embedding_endpoint_behavior
      [⟨1, 4, some "t", "c", none, none⟩] 1 (fun _ _ => true)
      ⟨1, 4, some "t", "c", none, none⟩ (by decide)).1 rfl
  · exact ((delete_embedding_endpoint_behavior
      [⟨1, 4, some "t", "c", some "vec-1", none⟩, ⟨2, 4, none, "c2", some "vec-2", none⟩]
      1 (fun _ _ => true)
      ⟨1, 4, some "t", "c", some "vec-1", none⟩ (by decide)).2 "vec-1" rfl
      (by decide)).1 rfl
  · exact ((delete_embedding_endpoint_behavior
      [⟨1, 4, some "t", "c", some "vec-1", none⟩] 1 (fun _ _ => false)
      ⟨1, 4, some "t", "c", some "vec-1", none⟩ (by decide)).2 "vec-1" rfl
      (by decide)).2 rfl

/-- C9 counterexample: the claim as stated is false. At the concrete input
(provider `heygen`, a 404 provider response), `get_animation_status`
returns status `processing` with a NON-null error field — the error text of
the canned not-found body is passed through, not suppressed — and at the
concrete input (provider `d-id`, a 404 provider response) it raises a
`ValueError` instead of mapping 404 to processing. -/
theorem get_animation_status_claim_counterexample :
    get_animation_status "heygen" "hk" "dk"
        (.response 404 ⟨false, none, none, none, none, none, none, none⟩ "Not Found")
        (.response 200 ⟨none, none, none⟩ "") =
      .ok ⟨"processing", none,
        some "Video not found. It may still be processing or the ID is incorrect."⟩ ∧
    (some "Video not found. It may still be processing or the ID is incorrect." ≠
      (none : Option String)) ∧
    get_animation_status "d-id" "hk" "dk"
        (.response 200 ⟨false, none, none, none, none, none, none, none⟩ "")
        (.response 404 ⟨none, none, none⟩ "Not Found") =
      .error (.valueError "D-ID API error: 404 - Not Found") := by
  refine ⟨rfl, by decide, rfl⟩

/-- C9 (amended): `get_animation_status` normalizes the provider payload
to the `{status, video_url, error}` shape; for the heygen provider a 404
response maps to status `processing` (with the provider's error text
passed through rather than suppressed); the error field is nulled for
processing/pending statuses by the status endpoint's post-processing step
(`suppressProcessingError`), not inside `get_animation_status`; and for
the d-id provider any HTTP-error response — 404 included — raises a
`ValueError` instead. -/
theorem get_animation_status_amended :
    (∀ (hk dk : String) (body : HeygenStatusBody) (text : String)
        (da : HttpAttempt DidStatusBody), hk ≠ "" →
      get_animation_status "heygen" hk dk (.response 404 body text) da =
        .ok ⟨"processing", none,
          some "Video not found. It may still be processing or the ID is incorrect."⟩) ∧
    (∀ (status : String) (error : Option String),
      (status = "processing" ∨ status = "pending") → pyTruthy error = true →
      suppressProcessingError status error = none) ∧
    (∀ (hk dk text : String) (ha : HttpAttempt HeygenStatusBody)
        (body : DidStatusBody) (code : Nat), dk ≠ "" → 400 ≤ code →
      get_animation_status "d-id" hk dk ha (.response code body text) =
        .error (.valueError ("D-ID API error: " ++ toString code ++ " - " ++ text))) := by
  refine ⟨?_, ?_, ?_⟩
  · intro hk dk body text da hkey
    simp [get_animation_status, get_heygen_video_status, hkey, pyOrOptStr, pyTruthy]
  · intro status error hstat herr
    simp [suppressProcessingError, hstat, herr]
  · intro hk dk text ha body code hkey hcode
    have hprov : ¬ (("d-id" : String) = "heygen") := by decide
    simp [get_animation_status, get_did_talk_status, hprov, hkey, hcode]

/-- Witness for the amended C9 theorem at concrete inputs. -/
theorem get_animation_status_amended_witness :
    (get_animation_status "heygen" "hk" "dk"
        (.response 404 ⟨true, some "x", none, none, none, none, none, some "e"⟩ "nf")
        (.networkError "down") =
      .ok ⟨"processing", none,
        some "Video not found. It may still be processing or the ID is incorrect."⟩) ∧
    suppressProcessingError "pending" (some "transient") = none ∧
    (get_animation_status "d-id" "hk" "dk"
        (.networkError "down") (.response 500 ⟨none, none, none⟩ "boom") =
      .error (.valueError ("D-ID API error: " ++ toString 500 ++ " - " ++ "boom"))) :=
  ⟨get_animation_status_amended.1 "hk" "dk"
      ⟨true, some "x", none, none, none, none, none, some "e"⟩ "nf"
      (.networkError "down") (by decide),
   get_animation_status_amended.2.1 "pending" (some "transient") (.inr rfl) (by decide),
   get_animation_status_amended.2.2 "hk" "dk" "boom" (.networkError "down")
      ⟨none, none, none⟩ 500 (by decide) (by decide)⟩

/-- C1: a successful parent-relationship creation A→B inserts exactly the
requested parent edge A→B and exactly one child edge B→A; a successful
spouse or sibling creation inserts exactly one mirrored edge B→A of the
same type; and deleting either edge of a mirrored pair (in a state
satisfying the primary-key and `uq_relationship` invariants) removes both
edges of the pair and nothing else. -/
theorem relationship_symmetry :
    (∀ (db : FamilyDB) (A B : Nat) (notes : Option String) (db2 : FamilyDB)
        (e : FamilyRelationship),
      create_relationship db A B .parent notes = .ok (db2, e) →
      db2.relationships = db.relationships ++
        [⟨db.nextId, A, B, .parent, notes⟩, ⟨db.nextId + 1, B, A, .child, notes⟩] ∧
      countTriple db2.relationships B A .child = 1 ∧
      countTriple db2.relationships A B .parent = 1) ∧
    (∀ (db : FamilyDB) (A B : Nat) (notes : Option String) (t : RelationshipType)
        (db2 : FamilyDB) (e : FamilyRelationship),
      t = .spouse ∨ t = .sibling →
      create_relationship db A B t notes = .ok (db2, e) →
      db2.relationships = db.relationships ++
        [⟨db.nextId, A, B, t, notes⟩, ⟨db.nextId + 1, B, A, t, notes⟩] ∧
      countTriple db2.relationships B A t = 1) ∧
    (∀ (db : FamilyDB) (e1 e2 : FamilyRelationship),
      uniqueIdsB db.relationships = true → noDupTriples db.relationships = true →
      e1 ∈ db.relationships → e2 ∈ db.relationships →
      e2.memorial_id = e1.related_memorial_id →
      e2.related_memorial_id = e1.memorial_id →
      e2.relationship_type = reverseTypeOf e1.relationship_type →
      (∃ db2, delete_relationship db e1.id = .ok db2 ∧
        ∀ r, r ∈ db2.relationships ↔
          (r ∈ db.relationships ∧ r.id ≠ e1.id ∧ r.id ≠ e2.id)) ∧
      (∃ db2, delete_relationship db e2.id = .ok db2 ∧
        ∀ r, r ∈ db2.relationships ↔
          (r ∈ db.relationships ∧ r.id ≠ e1.id ∧ r.id ≠ e2.id))) := by
  refine ⟨?_, ?_, ?_⟩
  · intro db A B notes db2 e h
    obtain ⟨hrels, hnd, _, _, _⟩ := create_relationship_ok_elim h
    refine ⟨hrels, ?_, ?_⟩
    · have hmem : (⟨db.nextId + 1, B, A, .child, notes⟩ : FamilyRelationship) ∈
          db2.relationships := by
        rw [hrels]; simp [reverseTypeOf]
      exact countTriple_eq_one_of_noDup hnd hmem (by simp [matchesTriple])
    · have hmem : (⟨db.nextId, A, B, .parent, notes⟩ : FamilyRelationship) ∈
          db2.relationships := by
        rw [hrels]; simp
      exact countTriple_eq_one_of_noDup hnd hmem (by simp [matchesTriple])
  · intro db A B notes t db2 e ht h
    obtain ⟨hrels, hnd, _, _, _⟩ := create_relationship_ok_elim h
    have hrev : reverseTypeOf t = t := by rcases ht with rfl | rfl <;> rfl
    rw [hrev] at hrels
    refine ⟨hrels, ?_⟩
    have hmem : (⟨db.nextId + 1, B, A, t, notes⟩ : FamilyRelationship) ∈
        db2.relationships := by
      rw [hrels]; simp
    exact countTriple_eq_one_of_noDup hnd hmem (by simp [matchesTriple])
  · intro db e1 e2 hU hT h1 h2 hm hr ht
    refine ⟨delete_mirrored hU hT h1 h2 hm hr ht, ?_⟩
    have hm' : e1.memorial_id = e2.related_memorial_id := hr.symm
    have hr' : e1.related_memorial_id = e2.memorial_id := hm.symm
    have ht' : e1.relationship_type = reverseTypeOf e2.relationship_type := by
      rw [ht, reverseTypeOf_involutive]
    obtain ⟨db2, hdel, hiff⟩ := delete_mirrored hU hT h2 h1 hm' hr' ht'
    refine ⟨db2, hdel, fun r => ?_⟩
    rw [hiff r]
    tauto

/-- Witness for the C1 theorem: parent creation on a two-memorial database,
spouse creation on the same database, and deletion of either edge of a
concrete mirrored parent/child pair. -/
theorem relationship_symmetry_witness :
    (countTriple [⟨1, 1, 2, .parent, none⟩, ⟨2, 2, 1, .child, none⟩] 2 1 .child = 1 ∧
     countTriple [⟨1, 1, 2, .parent, none⟩, ⟨2, 2, 1, .child, none⟩] 1 2 .parent = 1) ∧
    countTriple [⟨1, 1, 2, .spouse, none⟩, ⟨2, 2, 1, .spouse, none⟩] 2 1 .spouse = 1 ∧
    ((∃ db2, delete_relationship mirroredPairDB 1 = .ok db2 ∧
        ∀ r, r ∈ db2.relationships ↔
          (r ∈ mirroredPairDB.relationships ∧ r.id ≠ 1 ∧ r.id ≠ 2)) ∧
     (∃ db2, delete_relationship mirroredPairDB 2 = .ok db2 ∧
        ∀ r, r ∈ db2.relationships ↔
          (r ∈ mirroredPairDB.relationships ∧ r.id ≠ 1 ∧ r.id ≠ 2))) := by
  refine ⟨?_, ?_, ?_⟩
  · have h := relationship_symmetry.1 twoMemorialsDB 1 2 none
      ⟨twoMemorialsDB.memorials,
        [⟨1, 1, 2, .parent, none⟩, ⟨2, 2, 1, .child, none⟩], 3⟩
      ⟨1, 1, 2, .parent, none⟩ rfl
    exact ⟨h.2.1, h.2.2⟩
  · have h := relationship_symmetry.2.1 twoMemorialsDB 1 2 none .spouse
      ⟨twoMemorialsDB.memorials,
        [⟨1, 1, 2, .spouse, none⟩, ⟨2, 2, 1, .spouse, none⟩], 3⟩
      ⟨1, 1, 2, .spouse, none⟩ (Or.inl rfl) rfl
    exact h.2
  · exact relationship_symmetry.2.2 mirroredPairDB
      ⟨1, 1, 2, .parent, none⟩ ⟨2, 2, 1, .child, none⟩
      (by decide) (by decide) (by decide) (by decide) rfl rfl rfl

/-- C10: the duplicate check compares only the exact triple
`(memorial_id, related_memorial_id, relationship_type)`: after a parent
edge A→B exists with its auto-created child edge B→A, creating a child
edge A→B still succeeds and auto-creates a parent edge B→A, so the store
simultaneously records B as both parent and child of A without any request
being rejected. -/
theorem duplicate_check_only_exact_triple
    (db : FamilyDB) (A B : Nat) (notes1 notes2 : Option String)
    (hA : (findMemorial db A).isSome = true) (hB : (findMemorial db B).isSome = true)
    (hne : A ≠ B)
    (habsent : db.relationships.all (fun r =>
      !(matchesTriple A B .parent r) && !(matchesTriple A B .child r) &&
      !(matchesTriple B A .parent r) && !(matchesTriple B A .child r)) = true)
    (hT : noDupTriples db.relationships = true) :
    ∃ db1 e1 db2 e2,
      create_relationship db A B .parent notes1 = .ok (db1, e1) ∧
      create_relationship db1 A B .child notes2 = .ok (db2, e2) ∧
      countTriple db2.relationships A B .parent = 1 ∧
      countTriple db2.relationships A B .child = 1 ∧
      countTriple db2.relationships B A .parent = 1 ∧
      countTriple db2.relationships B A .child = 1 := by
  have habs : ∀ r ∈ db.relationships,
      matchesTriple A B .parent r = false ∧ matchesTriple A B .child r = false ∧
      matchesTriple B A .parent r = false ∧ matchesTriple B A .child r = false := by
    intro r hrr
    have := List.all_eq_true.mp habsent r hrr
    simp only [Bool.and_eq_true, Bool.not_eq_true'] at this
    tauto
  have hAB : (A == B) = false := beq_eq_false_iff_ne.mpr hne
  have hBA : (B == A) = false := beq_eq_false_iff_ne.mpr (Ne.symm hne)
  have g1 : db.relationships.find? (matchesTriple A B .parent) = none :=
    List.find?_eq_none.mpr (fun r hrr => by simp [(habs r hrr).1])
  have hcommit1 : noDupTriples (db.relationships ++
      [⟨db.nextId, A, B, .parent, notes1⟩,
       ⟨db.nextId + 1, B, A, reverseTypeOf .parent, notes1⟩]) = true := by
    rw [noDupTriples_iff, List.pairwise_append]
    refine ⟨noDupTriples_iff.mp hT, by simp [tripleEq, hne], ?_⟩
    intro a ha b hb
    simp only [List.mem_cons, List.not_mem_nil, or_false] at hb
    rcases hb with rfl | rfl
    · exact (habs a ha).1
    · exact (habs a ha).2.2.2
  have hc1 : create_relationship db A B .parent notes1 =
      .ok ({ memorials := db.memorials,
             relationships := db.relationships ++
               [⟨db.nextId, A, B, .parent, notes1⟩,
                ⟨db.nextId + 1, B, A, reverseTypeOf .parent, notes1⟩],
             nextId := db.nextId + 2 }, ⟨db.nextId, A, B, .parent, notes1⟩) :=
    create_relationship_ok_intro hA hB hne g1 hcommit1
  have hA1 : (findMemorial
      ({ memorials := db.memorials,
         relationships := db.relationships ++
           [⟨db.nextId, A, B, .parent, notes1⟩,
            ⟨db.nextId + 1, B, A, reverseTypeOf .parent, notes1⟩],
         nextId := db.nextId + 2 } : FamilyDB) A).isSome = true := hA
  have hB1 : (findMemorial
      ({ memorials := db.memorials,
         relationships := db.relationships ++
           [⟨db.nextId, A, B, .parent, notes1⟩,
            ⟨db.nextId + 1, B, A, reverseTypeOf .parent, notes1⟩],
         nextId := db.nextId + 2 } : FamilyDB) B).isSome = true := hB
  have g2 : (db.relationships ++
      ([⟨db.nextId, A, B, .parent, notes1⟩,
        ⟨db.nextId + 1, B, A, reverseTypeOf .parent, notes1⟩] :
          List FamilyRelationship)).find?
        (matchesTriple A B .child) = none := by
    rw [List.find?_eq_none]
    intro r hrr
    rcases List.mem_append.mp hrr with hold | hnew
    · simp [(habs r hold).2.1]
    · simp only [List.mem_cons, List.not_mem_nil, or_false] at hnew
      rcases hnew with rfl | rfl
      · simp [matchesTriple]
      · simp [matchesTriple, hBA]
  have hcommit2 : noDupTriples ((db.relationships ++
      [⟨db.nextId, A, B, .parent, notes1⟩,
       ⟨db.nextId + 1, B, A, reverseTypeOf .parent, notes1⟩]) ++
      [⟨db.nextId + 2, A, B, .child, notes2⟩,
       ⟨db.nextId + 2 + 1, B, A, reverseTypeOf .child, notes2⟩]) = true := by
    rw [noDupTriples_iff, List.pairwise_append]
    refine ⟨noDupTriples_iff.mp hcommit1, by simp [tripleEq, hne], ?_⟩
    intro a ha b hb
    simp only [List.mem_cons, List.not_mem_nil, or_false] at hb
    rcases List.mem_append.mp ha with hold | hnew
    · rcases hb with rfl | rfl
      · exact (habs a hold).2.1
      · exact (habs a hold).2.2.1
    · simp only [List.mem_cons, List.not_mem_nil, or_false] at hnew
      rcases hnew with rfl | rfl <;> rcases hb with rfl | rfl
      · simp [tripleEq]
      · simp [tripleEq, hAB, reverseTypeOf]
      · simp [tripleEq, hBA]
      · simp [tripleEq, reverseTypeOf]
  have hc2 := create_relationship_ok_intro hA1 hB1 hne g2 hcommit2
  refine ⟨_, _, _, _, hc1, hc2, ?_, ?_, ?_, ?_⟩
  · have hmem : (⟨db.nextId, A, B, .parent, notes1⟩ : FamilyRelationship) ∈
        ((db.relationships ++
          [⟨db.nextId, A, B, .parent, notes1⟩,
           ⟨db.nextId + 1, B, A, reverseTypeOf .parent, notes1⟩]) ++
          [⟨db.nextId + 2, A, B, .child, notes2⟩,
           ⟨db.nextId + 2 + 1, B, A, reverseTypeOf .child, notes2⟩]) := by simp
    exact countTriple_eq_one_of_noDup hcommit2 hmem (by simp [matchesTriple])
  · have hmem : (⟨db.nextId + 2, A, B, .child, notes2⟩ : FamilyRelationship) ∈
        ((db.relationships ++
          [⟨db.nextId, A, B, .parent, notes1⟩,
           ⟨db.nextId + 1, B, A, reverseTypeOf .parent, notes1⟩]) ++
          [⟨db.nextId + 2, A, B, .child, notes2⟩,
           ⟨db.nextId + 2 + 1, B, A, reverseTypeOf .child, notes2⟩]) := by simp
    exact countTriple_eq_one_of_noDup hcommit2 hmem (by simp [matchesTriple])
  · have hmem : (⟨db.nextId + 2 + 1, B, A, reverseTypeOf .child, notes2⟩ :
        FamilyRelationship) ∈
        ((db.relationships ++
          [⟨db.nextId, A, B, .parent, notes1⟩,
           ⟨db.nextId + 1, B, A, reverseTypeOf .parent, notes1⟩]) ++
          [⟨db.nextId + 2, A, B, .child, notes2⟩,
           ⟨db.nextId + 2 + 1, B, A, reverseTypeOf .child, notes2⟩]) := by simp
    exact countTriple_eq_one_of_noDup hcommit2 hmem
      (by simp [matchesTriple, reverseTypeOf])
  · have hmem : (⟨db.nextId + 1, B, A, reverseTypeOf .parent, notes1⟩ :
        FamilyRelationship) ∈
        ((db.relationships ++
          [⟨db.nextId, A, B, .parent, notes1⟩,
           ⟨db.nextId + 1, B, A, reverseTypeOf .parent, notes1⟩]) ++
          [⟨db.nextId + 2, A, B, .child, notes2⟩,
           ⟨db.nextId + 2 + 1, B, A, reverseTypeOf .child, notes2⟩]) := by simp
    exact countTriple_eq_one_of_noDup hcommit2 hmem
      (by simp [matchesTriple, reverseTypeOf])

/-- Witness for the C10 theorem on a two-memorial database with no
pre-existing relationships. -/
theorem duplicate_check_only_exact_triple_witness :
    ∃ db1 e1 db2 e2,
      create_relationship twoMemorialsDB 1 2 .parent none = .ok (db1, e1) ∧
      create_relationship db1 1 2 .child none = .ok (db2, e2) ∧
      countTriple db2.relationships 1 2 .parent = 1 ∧
      countTriple db2.relationships 1 2 .child = 1 ∧
      countTriple db2.relationships 2 1 .parent = 1 ∧
      countTriple db2.relationships 2 1 .child = 1 :=
  duplicate_check_only_exact_triple twoMemorialsDB 1 2 none none
    (by decide) (by decide) (by decide) (by decide) (by decide)

lemma childListHeight_le {l : List FamilyTreeNode} {b : Nat}
    (h : ∀ c ∈ l, 1 + childEdgeHeight c ≤ b) : childListHeight l ≤ b := by
  induction l with
  | nil => simp [childListHeight]
  | cons c cs ih =>
    simp only [childListHeight]
    exact max_le (h c (by simp)) (ih fun x hx => h x (by simp [hx]))

lemma branchListHeight_le {l : List FamilyTreeNode} {b : Nat}
    (h : ∀ c ∈ l, 1 + treeHeight c ≤ b) : branchListHeight l ≤ b := by
  induction l with
  | nil => simp [branchListHeight]
  | cons c cs ih =>
    simp only [branchListHeight]
    exact max_le (h c (by simp)) (ih fun x hx => h x (by simp [hx]))

/-- Past the depth budget `build_tree` yields no node. -/
lemma build_tree_none_of_deep (db : FamilyDB) (max_depth : Int) (node_id : Nat)
    (depth : Int) (visited : List Nat) (h : max_depth < depth) :
    build_tree db max_depth node_id depth visited = none := by
  unfold build_tree
  rw [dif_pos (Or.inl h)]

/-- A successful recursive call pins its depth inside the budget. -/
lemma depth_le_of_build_tree_some {db : FamilyDB} {max_depth : Int} {node_id : Nat}
    {depth : Int} {visited : List Nat} {t : FamilyTreeNode}
    (h : build_tree db max_depth node_id depth visited = some t) :
    depth ≤ max_depth := by
  by_contra hlt
  rw [Int.not_le] at hlt
  rw [build_tree_none_of_deep db max_depth node_id depth visited hlt] at h
  exact Option.noConfusion h

/-- The recursion of `build_tree` keeps both height measures within the
remaining depth budget: the child-edge height of a subtree built at
`depth` is at most `(max_depth - depth).toNat`, and the full height —
spouse leaves included — exceeds it by at most one. -/
lemma build_tree_bounds :
    ∀ (fuel : Nat) (db : FamilyDB) (max_depth : Int) (node_id : Nat) (depth : Int)
      (visited : List Nat) (t : FamilyTreeNode),
      (max_depth + 1 - depth).toNat ≤ fuel →
      build_tree db max_depth node_id depth visited = some t →
      childEdgeHeight t ≤ (max_depth - depth).toNat ∧
      treeHeight t ≤ (max_depth - depth).toNat + 1 := by
  intro fuel
  induction fuel with
  | zero =>
    intro db m node_id d visited t hf h
    unfold build_tree at h
    split at h
    · simp at h
    · rename_i hguard
      rw [not_or] at hguard
      exfalso
      have h1 := hguard.1
      rw [Int.not_lt] at h1
      omega
  | succ n ih =>
    intro db m node_id d visited t hf h
    unfold build_tree at h
    split at h
    · simp at h
    rename_i hguard
    rw [not_or] at hguard
    have hd : d ≤ m := Int.not_lt.mp hguard.1
    dsimp only at h
    split at h
    · simp at h
    rename_i node_memorial hfindm
    have ht := Option.some.inj h
    subst ht
    have hfuel : (m + 1 - (d + 1)).toNat ≤ n := by omega
    constructor
    · simp only [childEdgeHeight]
      apply childListHeight_le
      intro c hc
      obtain ⟨r, _, hcr⟩ := List.mem_filterMap.mp hc
      have hdepth := depth_le_of_build_tree_some hcr
      have hb := ih db m r.related_memorial_id (d + 1) (node_id :: visited) c hfuel hcr
      omega
    · simp only [treeHeight]
      apply max_le
      · apply branchListHeight_le
        intro c hc
        obtain ⟨r, _, hcr⟩ := List.mem_filterMap.mp hc
        have hdepth := depth_le_of_build_tree_some hcr
        have hb := ih db m r.related_memorial_id (d + 1) (node_id :: visited) c hfuel hcr
        omega
      · apply branchListHeight_le
        intro s hs
        obtain ⟨r, _, hsr⟩ := List.mem_filterMap.mp hs
        obtain ⟨sm, _, hsm⟩ := Option.map_eq_some'.mp hsr
        subst hsm
        simp [treeHeight, branchListHeight]

/-- C5 counterexample: the claim as stated is false. At the concrete input
`GET /family/memorials/1/tree?max_depth=0` on a database where memorials 1
and 2 are spouses, the call terminates and succeeds, but the returned tree
attaches memorial 2 as a spouse leaf of the root, so its longest
root-to-leaf path has 1 edge, exceeding `D = 0`. -/
theorem family_tree_depth_claim_counterexample :
    get_family_tree spousePairDB 1 0 =
      .ok (FamilyTreeNode.mk 1 "Anna" none none none []
            [FamilyTreeNode.mk 2 "Boris" none none (some .spouse) [] []], 2) ∧
    treeHeight (FamilyTreeNode.mk 1 "Anna" none none none []
            [FamilyTreeNode.mk 2 "Boris" none none (some .spouse) [] []]) = 1 ∧
    ¬ (treeHeight (FamilyTreeNode.mk 1 "Anna" none none none []
            [FamilyTreeNode.mk 2 "Boris" none none (some .spouse) [] []]) ≤ 0) := by
  refine ⟨?_, by decide, by decide⟩
  simp [get_family_tree, build_tree, spousePairDB, findMemorial,
    count_nodes, countChildren, countSpouses]

/-- C5 (amended): `GET /family/memorials/{id}/tree?max_depth=D` always
terminates, even on cyclic relationship graphs (the embedded `build_tree`
is a total function whose recursion is well-founded on the remaining depth
budget, exactly as the source's `depth` strictly increases toward
`max_depth` with visited nodes skipped); on success the returned tree has
no root-to-leaf path longer than D edges through child edges, and no
root-to-leaf path longer than D + 1 edges when the spouse leaves attached
at each visited node are counted as well. -/
theorem family_tree_depth_bound (db : FamilyDB) (memorial_id : Nat) (D : Int)
    (t : FamilyTreeNode) (n : Nat)
    (h : get_family_tree db memorial_id D = .ok (t, n)) :
    childEdgeHeight t ≤ D.toNat ∧ treeHeight t ≤ D.toNat + 1 := by
  unfold get_family_tree at h
  split at h
  · simp at h
  · split at h
    · simp at h
    · rename_i root hbt
      have h' := Except.ok.inj h
      rw [Prod.mk.injEq] at h'
      obtain ⟨rfl, rfl⟩ := h'
      have hb := build_tree_bounds ((D + 1 - 0).toNat) db D memorial_id 0 [] root
        (le_refl _) hbt
      simpa using hb

/-- Witness for the amended C5 theorem: a cyclic child-edge graph (1 and 2
are each other's child) with `max_depth = 3`; the tree construction
terminates on the cycle and both height bounds hold. -/
theorem family_tree_depth_bound_witness :
    childEdgeHeight (FamilyTreeNode.mk 1 "Anna" none none none
        [FamilyTreeNode.mk 2 "Boris" none none none [] []] []) ≤ (3 : Int).toNat ∧
    treeHeight (FamilyTreeNode.mk 1 "Anna" none none none
        [FamilyTreeNode.mk 2 "Boris" none none none [] []] []) ≤ (3 : Int).toNat + 1 :=
  family_tree_depth_bound childCycleDB 1 3
    (FamilyTreeNode.mk 1 "Anna" none none none
      [FamilyTreeNode.mk 2 "Boris" none none none [] []] []) 2
    (by simp [get_family_tree, build_tree, childCycleDB, findMemorial,
      count_nodes, countChildren, countSpouses])

end Memorial
